import Mathlib

/-!
Verification of the SimpleMonitor scheduling and state engine.

This file shallowly embeds the parts of the SimpleMonitor source that the
claims under scrutiny talk about: the per-check hysteresis state machine
(the Monitor base class), the compound-group evaluator
(Monitors/compound.py), the configuration-reload logic (monitor.py), the
logger dependency muting (Loggers/logger.py) and the execute alerter's
command selection (Alerters/execute.py).

The Monitor base class (Monitors/monitor.py) and the SimpleMonitor
container (simplemonitor.py) are not part of the provided sources; the
definitions that embed them are modelled from the specification and are
marked as such in their doc-strings.
-/

namespace SimpleMonitorProof

/-- Modelled from the spec: the mutable per-check state owned by a Monitor
(the Monitor base class in Monitors/monitor.py is not among the provided
sources).  Fields follow §3 of the spec: `error_count` (consecutive
failures since last success), `success_count` (consecutive successes since
last failure), `tests_run` (lifetime count), `last_result` (text),
`failed_at` (timestamp of the failure streak's start, cleared on success),
`was_skipped` with `skip_dep`.  Timestamps are naturals. -/
structure CheckState where
  error_count : Nat
  success_count : Nat
  tests_run : Nat
  last_result : String
  failed_at : Option Nat
  was_skipped : Bool
  skip_dep : Option String
  deriving Repr, DecidableEq

/-- A fresh `CheckState`, before any run. -/
def initState : CheckState :=
  { error_count := 0
    success_count := 0
    tests_run := 0
    last_result := ""
    failed_at := none
    was_skipped := false
    skip_dep := none }

/-- Modelled from the spec: `record_success(detail)` of the Monitor base
class — `error_count = 0`; `success_count += 1`; `tests_run += 1`;
`last_result = detail`; `failed_at` cleared. -/
def record_success (s : CheckState) (detail : String) : CheckState :=
  { s with
    error_count := 0
    success_count := s.success_count + 1
    tests_run := s.tests_run + 1
    last_result := detail
    failed_at := none }

/-- Modelled from the spec: `record_fail(detail)` of the Monitor base
class — `success_count = 0`; `error_count += 1`; `tests_run += 1`;
`last_result = detail`; if `failed_at` is unset, set it to now. -/
def record_fail (s : CheckState) (detail : String) (now : Nat) : CheckState :=
  { s with
    success_count := 0
    error_count := s.error_count + 1
    tests_run := s.tests_run + 1
    last_result := detail
    failed_at := match s.failed_at with
      | none => some now
      | some t => some t }

/-- Modelled from the spec: `record_skip(dependency_name)` of the Monitor
base class — `success_count += 1` (skips behave as non-failures for
gap/tolerance purposes), `was_skipped = true`, `skip_reason =
dependency_name`; does not touch `error_count`. -/
def record_skip (s : CheckState) (dep : String) : CheckState :=
  { s with
    success_count := s.success_count + 1
    was_skipped := true
    skip_dep := some dep }

/-- Modelled from the spec: `virtual_fail_count()` of the Monitor base
class — `error_count` if `error_count > tolerance` else `0` (the
hysteresis contract). -/
def virtual_fail_count (tolerance : Nat) (s : CheckState) : Nat :=
  if tolerance < s.error_count then s.error_count else 0

/-- Modelled from the spec: `should_run(now)` of the Monitor base class —
true if `error_count > 0` (always recheck failing checks regardless of
spacing) or `now - last_run ≥ minimum_gap`.  Times are integers so the
subtraction matches the source's arbitrary-precision arithmetic. -/
def should_run (s : CheckState) (minimum_gap last_run now : Int) : Bool :=
  if 0 < s.error_count then true
  else decide (minimum_gap ≤ now - last_run)

/-- A streak of `n` consecutive `record_fail` calls (same detail text,
time 0) starting from a fresh state. -/
def failStreak (d : String) : Nat → CheckState
  | 0 => initState
  | n + 1 => record_fail (failStreak d n) d 0

theorem failStreak_error_count (d : String) :
    ∀ n, (failStreak d n).error_count = n := by
  intro n
  induction n with
  | zero => rfl
  | succ k ih => simp [failStreak, record_fail, ih]

/-- Claim C1: hysteresis contract.  For every tolerance `t`, after exactly
`t` consecutive `record_fail` calls from a fresh state
`virtual_fail_count` is `0`, and after `t + 1` such calls it is `t + 1`;
moreover `virtual_fail_count` equals `error_count` when
`error_count > tolerance` and `0` otherwise, and `record_fail` increments
`error_count` by one while zeroing `success_count`. -/
theorem hysteresis_contract (t : Nat) (d : String) :
    virtual_fail_count t (failStreak d t) = 0 ∧
    virtual_fail_count t (failStreak d (t + 1)) = t + 1 ∧
    (∀ tol s, virtual_fail_count tol s =
      if tol < s.error_count then s.error_count else 0) ∧
    (∀ s detail now, (record_fail s detail now).error_count = s.error_count + 1 ∧
      (record_fail s detail now).success_count = 0) := by
  refine ⟨?_, ?_, fun tol s => rfl, fun s detail now => ⟨rfl, rfl⟩⟩
  · simp [virtual_fail_count, failStreak_error_count]
  · simp [virtual_fail_count, failStreak_error_count]

/-- Claim C4: for every `CheckState`, `record_success(detail)` zeroes
`error_count`, increments `success_count` and `tests_run` by one, sets
`last_result` to the detail and clears `failed_at`. -/
theorem record_success_spec (s : CheckState) (detail : String) :
    (record_success s detail).error_count = 0 ∧
    (record_success s detail).success_count = s.success_count + 1 ∧
    (record_success s detail).tests_run = s.tests_run + 1 ∧
    (record_success s detail).last_result = detail ∧
    (record_success s detail).failed_at = none :=
  ⟨rfl, rfl, rfl, rfl, rfl⟩

/-- One recording operation on a `CheckState`. -/
inductive MonitorOp where
  | succ (detail : String)
  | fail (detail : String) (now : Nat)
  | skip (dep : String)
  deriving Repr, DecidableEq

/-- Apply one recording operation. -/
def apply_op (s : CheckState) : MonitorOp → CheckState
  | MonitorOp.succ d => record_success s d
  | MonitorOp.fail d n => record_fail s d n
  | MonitorOp.skip dep => record_skip s dep

/-- Apply a sequence of recording operations, oldest first. -/
def run_ops (s : CheckState) (ops : List MonitorOp) : CheckState :=
  ops.foldl apply_op s

/-- Observation "currently failing": a failure streak is in progress
(`error_count > 0`, the state the spec's `state()` reports as failed). -/
def currently_failing (s : CheckState) : Prop :=
  0 < s.error_count

/-- Observation "currently succeeding": a success streak is in progress
and the cycle was not skipped. -/
def currently_succeeding (s : CheckState) : Prop :=
  s.error_count = 0 ∧ 0 < s.success_count ∧ s.was_skipped = false

/-- Observation "skipped this cycle". -/
def skipped_this_cycle (s : CheckState) : Prop :=
  s.was_skipped = true

instance (s : CheckState) : Decidable (currently_failing s) := by
  unfold currently_failing; infer_instance

instance (s : CheckState) : Decidable (currently_succeeding s) := by
  unfold currently_succeeding; infer_instance

instance (s : CheckState) : Decidable (skipped_this_cycle s) := by
  unfold skipped_this_cycle; infer_instance

/-- Exactly one of the three observations holds. -/
def exactly_one_observation (s : CheckState) : Prop :=
  (currently_failing s ∧ ¬ currently_succeeding s ∧ ¬ skipped_this_cycle s) ∨
  (¬ currently_failing s ∧ currently_succeeding s ∧ ¬ skipped_this_cycle s) ∨
  (¬ currently_failing s ∧ ¬ currently_succeeding s ∧ skipped_this_cycle s)

instance (s : CheckState) : Decidable (exactly_one_observation s) := by
  unfold exactly_one_observation; infer_instance

/-- Claim C5 counterexample: a `record_fail` followed by a `record_skip`
(which, per the spec, does not touch `error_count`) leaves the state
simultaneously observable as failing (`error_count = 1 > 0`) and as
skipped (`was_skipped`), so the "exactly one of the three conditions"
invariant fails on this two-operation sequence. -/
theorem exactly_one_observation_fails :
    ¬ exactly_one_observation
      (run_ops initState [MonitorOp.fail "boo" 0, MonitorOp.skip "a"]) ∧
    currently_failing
      (run_ops initState [MonitorOp.fail "boo" 0, MonitorOp.skip "a"]) ∧
    skipped_this_cycle
      (run_ops initState [MonitorOp.fail "boo" 0, MonitorOp.skip "a"]) := by
  refine ⟨?_, ?_, ?_⟩ <;> decide

/-- Claim C5 (amended): after any nonempty sequence of `record_success`,
`record_fail` and `record_skip` operations, at least one of "currently
failing", "currently succeeding" and "skipped this cycle" holds; the three
are not mutually exclusive, because `record_skip` sets `was_skipped`
without clearing the `error_count` of a prior failing streak, and
`record_success` does not clear `was_skipped`. -/
theorem observation_total (ops : List MonitorOp) (op : MonitorOp) :
    currently_failing (run_ops initState (ops ++ [op])) ∨
    currently_succeeding (run_ops initState (ops ++ [op])) ∨
    skipped_this_cycle (run_ops initState (ops ++ [op])) := by
  rw [run_ops, List.foldl_append]
  generalize List.foldl apply_op initState ops = s
  cases op with
  | succ d =>
      by_cases h : s.was_skipped
      · exact Or.inr (Or.inr h)
      · exact Or.inr (Or.inl ⟨rfl, Nat.succ_pos _, by simpa using h⟩)
  | fail d n => exact Or.inl (Nat.succ_pos _)
  | skip dep => exact Or.inr (Or.inr rfl)

/-- Claim C8: `should_run` returns true exactly when the check is failing
(`error_count > 0`) or the time since the last run is at least
`minimum_gap`; in particular a failing check runs regardless of spacing,
and a check that never ran (`last_run = 0`) runs whenever the current time
is at least the gap. -/
theorem should_run_spec (s : CheckState) (minimum_gap last_run now : Int) :
    should_run s minimum_gap last_run now = true ↔
      (0 < s.error_count ∨ minimum_gap ≤ now - last_run) := by
  by_cases h : 0 < s.error_count <;> simp [should_run, h]

/-- Configuration of a `CompoundMonitor` (Monitors/compound.py): the member
monitor names and the optional explicit `min_fail` value from the config
section. -/
structure CompoundConfig where
  monitors : List String
  min_fail_opt : Option Nat
  deriving Repr, DecidableEq

/-- The `min_fail` attribute computed by `CompoundMonitor.__init__`
(Monitors/compound.py): `get_config_option(..., "min_fail", default =
len(self.monitors))`.  The option lookup itself lives in util.py, which is
not among the provided sources; it is modelled from the spec as returning
the configured value when present and the default otherwise. -/
def compound_min_fail (cfg : CompoundConfig) : Nat :=
  cfg.min_fail_opt.getD cfg.monitors.length

/-- `CompoundMonitor.fail_count` (Monitors/compound.py): the loop over
`self.monitors` that increments a counter for every member whose
`virtual_fail_count()` is positive.  `vfc` gives each member's
`virtual_fail_count()`. -/
def fail_count (members : List String) (vfc : String → Nat) : Nat :=
  members.foldl (fun acc i => if 0 < vfc i then acc + 1 else acc) 0

/-- `CompoundMonitor.virtual_fail_count` (Monitors/compound.py): the real
failure count when at least `min_fail` members failed, else 0. -/
def compound_virtual_fail_count (members : List String) (vfc : String → Nat)
    (min_fail : Nat) : Nat :=
  if min_fail ≤ fail_count members vfc then fail_count members vfc else 0

theorem fail_count_aux (p : String → Bool) (members : List String) :
    ∀ acc : Nat,
      members.foldl (fun acc i => if p i then acc + 1 else acc) acc =
        acc + members.countP p := by
  induction members with
  | nil => intro acc; simp
  | cons a l ih =>
      intro acc
      by_cases h : p a <;>
        simp [List.countP_cons, h, ih, Nat.add_comm, Nat.add_assoc,
          Nat.add_left_comm]

theorem fail_count_eq_countP (members : List String) (vfc : String → Nat) :
    fail_count members vfc = members.countP (fun i => decide (0 < vfc i)) := by
  have h := fail_count_aux (fun i => decide (0 < vfc i)) members 0
  simpa [fail_count] using h

/-- Claim C2: for every compound group, `fail_count` equals the number of
members whose `virtual_fail_count()` is positive; the group's own
`virtual_fail_count()` is that count when it reaches `min_fail` and 0
otherwise; and when the configuration carries no explicit `min_fail`, the
threshold defaults to the number of members. -/
theorem compound_threshold_spec (members : List String) (vfc : String → Nat)
    (min_fail : Nat) :
    fail_count members vfc =
      members.countP (fun i => decide (0 < vfc i)) ∧
    compound_virtual_fail_count members vfc min_fail =
      (if min_fail ≤ members.countP (fun i => decide (0 < vfc i)) then
        members.countP (fun i => decide (0 < vfc i)) else 0) ∧
    (∀ ms : List String,
      compound_min_fail { monitors := ms, min_fail_opt := none } = ms.length) := by
  refine ⟨fail_count_eq_countP members vfc, ?_, fun ms => rfl⟩
  rw [compound_virtual_fail_count, fail_count_eq_countP]

/-- `CompoundMonitor.run_test` (Monitors/compound.py): starts a counter at
`min_fail`, decrements it for every member whose `get_success_count()` and
`tests_run` are both positive, and returns whether the counter ended up
strictly below `min_fail`.  The counter is an integer, as in the source,
so it may go negative.  It reads the members' states (`tbl`) and runs no
member probe. -/
def compound_run_test (members : List String) (tbl : String → CheckState)
    (min_fail : Int) : Bool :=
  decide
    (members.foldl
      (fun fc i =>
        if 0 < (tbl i).success_count ∧ 0 < (tbl i).tests_run then fc - 1
        else fc)
      min_fail < min_fail)

theorem run_test_aux (p : String → Prop) [DecidablePred p]
    (members : List String) :
    ∀ acc : Int,
      members.foldl (fun fc i => if p i then fc - 1 else fc) acc =
        acc - members.countP (fun i => decide (p i)) := by
  induction members with
  | nil => intro acc; simp
  | cons a l ih =>
      intro acc
      by_cases h : p a
      · simp [List.countP_cons, h, ih]; ring
      · simp [List.countP_cons, h, ih]

/-- Claim C3 counterexample: member "a" has failed once (tolerance 0, so
`virtual_fail_count() = 1 > 0`) while member "b" has succeeded once; with
an explicit `min_fail = 1` the claimed threshold rule demands a failed
verdict (`run_test() = False`, since one member is virtually failing), but
`run_test` returns `True`, because it only decrements for members with a
positive success streak and member "b" supplies one. -/
theorem run_test_not_vfc_threshold :
    ¬ (compound_run_test ["a", "b"]
        (fun i => if i = "a" then record_fail initState "boo" 0
                  else record_success initState "yay") 1 = false ↔
      1 ≤ fail_count ["a", "b"]
        (fun i => virtual_fail_count 0
          (if i = "a" then record_fail initState "boo" 0
           else record_success initState "yay"))) := by
  decide

/-- Claim C3 (amended): `CompoundMonitor.run_test` runs no member probe —
it is a pure function of the members' already-recorded states — and its
verdict is not the `min_fail` threshold over the members'
`virtual_fail_count()`: it passes (returns true) exactly when at least one
referenced member has both a positive `success_count` and a positive
`tests_run`, so it reports failure exactly when no member currently shows
a success streak, and the value of `min_fail` never affects the verdict. -/
theorem run_test_spec (members : List String) (tbl : String → CheckState)
    (min_fail : Int) :
    (compound_run_test members tbl min_fail = true ↔
      ∃ i ∈ members, 0 < (tbl i).success_count ∧ 0 < (tbl i).tests_run) ∧
    (∀ min_fail' : Int,
      compound_run_test members tbl min_fail =
        compound_run_test members tbl min_fail') := by
  have key : ∀ mf : Int, compound_run_test members tbl mf = true ↔
      ∃ i ∈ members, 0 < (tbl i).success_count ∧ 0 < (tbl i).tests_run := by
    intro mf
    rw [compound_run_test,
      run_test_aux (fun i => 0 < (tbl i).success_count ∧ 0 < (tbl i).tests_run)
        members mf]
    rw [decide_eq_true_iff, sub_lt_self_iff]
    norm_cast
    rw [List.countP_pos_iff]
    simp
  refine ⟨key min_fail, fun mf' => ?_⟩
  by_cases h : ∃ i ∈ members, 0 < (tbl i).success_count ∧ 0 < (tbl i).tests_run
  · rw [(key min_fail).mpr h, (key mf').mpr h]
  · have h1 := (key min_fail).not.mpr h
    have h2 := (key mf').not.mpr h
    simp only [Bool.not_eq_true] at h1 h2
    rw [h1, h2]

/-- A loaded monitor as `load_monitors` (monitor.py) sees it: its `type`
attribute, its current configuration options and its accumulated
`CheckState`. -/
structure MonitorRec where
  type_ : String
  config : List (String × String)
  state : CheckState
  deriving Repr, DecidableEq

/-- The monitor table of a `SimpleMonitor` instance: name to monitor. -/
def MonitorTable := String → Option MonitorRec

/-- A config section handed to `load_monitors` (monitor.py): the section
name, the configured `type` option and the full option dictionary
(defaults already merged in). -/
structure ConfigSection where
  name : String
  type_ : String
  options : List (String × String)
  deriving Repr, DecidableEq

/-- Modelled from the spec: `SimpleMonitor.update_monitor_config`
(simplemonitor.py is not among the provided sources) — applies the new
configuration to an existing monitor while preserving its accumulated
`CheckState` counters. -/
def update_monitor_config (r : MonitorRec) (options : List (String × String)) :
    MonitorRec :=
  { r with config := options }

/-- One iteration of the section loop of `load_monitors` (monitor.py,
lines 137-175) on an existing table: if the section name matches an
existing monitor, the new configuration is applied when the configured
type equals the monitor's type, and otherwise an error is logged and the
monitor is left alone; an unmatched name creates a fresh monitor when the
type is known.  Returns the new table and whether the
cannot-update-type error was logged. -/
def load_monitor_section (known_types : List String) (tbl : MonitorTable)
    (sec : ConfigSection) : MonitorTable × Bool :=
  match tbl sec.name with
  | some r =>
      if r.type_ = sec.type_ then
        (fun n => if n = sec.name then
            some (update_monitor_config r sec.options)
          else tbl n, false)
      else
        (tbl, true)
  | none =>
      if sec.type_ ∈ known_types then
        (fun n => if n = sec.name then
            some { type_ := sec.type_, config := sec.options,
                   state := initState }
          else tbl n, false)
      else
        (tbl, false)

/-- Claim C6: reload frame property of `load_monitors` — when a config
section's name matches an existing monitor, a matching type applies the
new configuration while preserving the monitor's accumulated `CheckState`
(and touches no other monitor), and a differing type leaves the whole
table unchanged and logs an error instead of converting the monitor. -/
theorem load_monitors_reload_frame (known_types : List String)
    (tbl : MonitorTable) (sec : ConfigSection) (r : MonitorRec)
    (h : tbl sec.name = some r) :
    (r.type_ = sec.type_ →
      (load_monitor_section known_types tbl sec).1 sec.name =
        some { r with config := sec.options } ∧
      (∀ n, n ≠ sec.name →
        (load_monitor_section known_types tbl sec).1 n = tbl n) ∧
      (load_monitor_section known_types tbl sec).2 = false) ∧
    (r.type_ ≠ sec.type_ →
      (∀ n, (load_monitor_section known_types tbl sec).1 n = tbl n) ∧
      (load_monitor_section known_types tbl sec).2 = true) := by
  constructor
  · intro htype
    rw [load_monitor_section, h]
    simp [htype, update_monitor_config]
    intro n hn
    simp [hn]
  · intro htype
    rw [load_monitor_section, h]
    simp [htype]

/-- The monitor "mon2" before the reload: type "host", target host
127.0.0.1, one accumulated success. -/
def demoRec : MonitorRec :=
  { type_ := "host"
    config := [("type", "host"), ("host", "127.0.0.1")]
    state := record_success initState "yay" }

/-- A concrete monitor table holding just "mon2". -/
def demoTable : MonitorTable :=
  fun n => if n = "mon2" then some demoRec else none

/-- The reloaded config section for "mon2": same type, new target host. -/
def demoSection : ConfigSection :=
  { name := "mon2", type_ := "host"
    options := [("type", "host"), ("host", "127.0.0.2")] }

/-- Claim C6 witness: on the concrete table holding monitor "mon2" of type
"host" with one accumulated success, reloading a section of the same name
and type applies the new target host while keeping the state counters,
leaves every other name alone, and logs no error. -/
theorem load_monitors_reload_frame_witness :
    demoTable "mon2" = some demoRec ∧
    ((load_monitor_section ["host", "null"] demoTable demoSection).1 "mon2" =
      some { demoRec with config := demoSection.options } ∧
    (∀ n, n ≠ "mon2" →
      (load_monitor_section ["host", "null"] demoTable demoSection).1 n =
        demoTable n) ∧
    (load_monitor_section ["host", "null"] demoTable demoSection).2 = false) := by
  refine ⟨by decide, ?_⟩
  have h := (load_monitors_reload_frame ["host", "null"] demoTable demoSection
    demoRec (by decide)).1 (by decide)
  exact ⟨h.1, fun n hn => h.2.1 n (by simpa [demoSection] using hn), h.2.2⟩

/-- `check_hup_file(path)` (monitor.py): given the watched path (none when
no hup file is configured), the outcome of `os.stat` on it (`none` when
stat raised) and the module-level `hup_timestamp`, returns whether a
reload is triggered together with the updated `hup_timestamp`. -/
def check_hup_file (path : Option String) (stat_mtime : Option Nat)
    (hup_timestamp : Option Nat) : Bool × Option Nat :=
  match path with
  | none => (false, hup_timestamp)
  | some _ =>
    match stat_mtime with
    | none => (false, hup_timestamp)
    | some mt =>
      match hup_timestamp with
      | none => (true, some mt)
      | some prev =>
          if prev < mt then (true, some mt) else (false, hup_timestamp)

/-- Claim C7: for a watched path whose stat succeeds, `check_hup_file`
returns true exactly when the file's modification time is strictly greater
than the modification time recorded at the previous observation (and it
then records the new time); with no path, or when stat fails, it returns
false. -/
theorem check_hup_file_spec (p : String) (mt prev : Nat) :
    ((check_hup_file (some p) (some mt) (some prev)).1 = true ↔ prev < mt) ∧
    ((check_hup_file (some p) (some mt) (some prev)).2 =
      if prev < mt then some mt else some prev) ∧
    (∀ (st : Option Nat) (ht : Option Nat),
      (check_hup_file none st ht).1 = false) ∧
    (∀ (pa : Option String) (ht : Option Nat),
      (check_hup_file pa none ht).1 = false) := by
  refine ⟨?_, ?_, fun st ht => rfl, fun pa ht => ?_⟩
  · by_cases h : prev < mt <;> simp [check_hup_file, h]
  · by_cases h : prev < mt <;> simp [check_hup_file, h]
  · cases pa <;> rfl

/-- `Logger.check_dependencies(failed_list)` (Loggers/logger.py): resets
`connected` to true, then clears it for every entry of `failed_list` that
is among the logger's declared dependencies, and returns the resulting
`connected` flag.  `prior_connected` is the flag left by the previous
cycle, which the method overwrites before reading anything. -/
def check_dependencies (prior_connected : Bool) (deps : List String)
    (failed_list : List String) : Bool :=
  let _ := prior_connected
  failed_list.foldl
    (fun connected dependency =>
      if dependency ∈ deps then false else connected)
    true

theorem check_dependencies_aux (deps : List String) (failed : List String) :
    ∀ c : Bool,
      failed.foldl
        (fun connected dependency =>
          if dependency ∈ deps then false else connected) c =
        (c && !(failed.any (fun d => decide (d ∈ deps)))) := by
  induction failed with
  | nil => intro c; simp
  | cons a l ih =>
      intro c
      rw [List.foldl_cons, List.any_cons]
      by_cases h : a ∈ deps
      · rw [if_pos h, ih]; simp [h]
      · rw [if_neg h, ih]; simp [h]

/-- Claim C9: `check_dependencies(failed_list)` marks the logger
disconnected and returns false exactly when some name in `failed_list` is
among the logger's declared dependencies, and otherwise marks it connected
and returns true — independently of the connected flag left over from any
previous cycle. -/
theorem check_dependencies_spec (prior : Bool) (deps failed : List String) :
    (check_dependencies prior deps failed = false ↔
      ∃ name ∈ failed, name ∈ deps) ∧
    (∀ prior' : Bool,
      check_dependencies prior deps failed =
        check_dependencies prior' deps failed) := by
  refine ⟨?_, fun prior' => rfl⟩
  rw [check_dependencies, check_dependencies_aux]
  simp

/-- `ExecuteAlerter.send_alert` (Alerters/execute.py), command-selection
part: from the resolved alert type and the three configured command
templates, the command that will be formatted and executed (`none`: return
without executing anything).  On "catchup", a command is chosen only when
`catchup_command` is the literal string "fail_command", and then it is the
`fail_command` template. -/
def select_alert_command (alert_type : String)
    (fail_command success_command catchup_command : Option String) :
    Option String :=
  if alert_type = "" then none
  else if alert_type = "failure" then fail_command
  else if alert_type = "success" then success_command
  else if alert_type = "catchup" then
    if catchup_command = some "fail_command" then fail_command else none
  else none

/-- Claim C10: on a catchup alert, `ExecuteAlerter.send_alert` selects the
`fail_command` template when the configured `catchup_command` is exactly
the string "fail_command" and selects no command at all otherwise, so no
other configured catchup text is ever executed on a catchup alert. -/
theorem execute_catchup_spec
    (fail_command success_command catchup_command : Option String) :
    select_alert_command "catchup" fail_command success_command
        catchup_command =
      (if catchup_command = some "fail_command" then fail_command
       else none) := by
  rfl

end SimpleMonitorProof
